import Mathlib

/-
Verification development for the 3D-House-Color-Mixer repository.

The core under study is the part-classification and color-application
engine of src/src/main.js (analyzeModel, getPartMaterialIndex,
updatePartColor) together with the dirty-flag render loop of the
optimized variant (requestRender / animate in the unnamed optimized
main module).  The JavaScript is shallowly embedded: scene nodes are
records, a material is either absent, a single slot, or an array of
slots (mirroring the runtime Array.isArray test), and the traversal of
analyzeModel is modelled as a fold over the renderable leaves in
traversal order with the running meshCount counter made explicit.
-/

/-- RGB color value, abstracted as a natural number (the engine only
stores and overwrites whole color values; it never inspects channels). -/
abbrev Color := Nat

/-- One material slot of a node: an optional name and a mutable color,
as in the three.js material objects touched by updatePartColor. -/
structure MaterialSlot where
  matName : String
  color : Color
deriving DecidableEq, Repr, Inhabited

/-- The material binding of a scene node.  JavaScript distinguishes at
runtime: child.material may be falsy (no material), a single material
object, or an array of materials (Array.isArray(child.material)). -/
inductive MaterialBinding : Type where
  | nomat : MaterialBinding
  | single : MaterialSlot → MaterialBinding
  | multi : List MaterialSlot → MaterialBinding
deriving DecidableEq, Repr, Inhabited

/-- A renderable leaf (a node with child.isMesh true): its name and its
material binding, the only data the classifier and applicator read. -/
structure SceneNode where
  name : String
  material : MaterialBinding
deriving DecidableEq, Repr, Inhabited

/-- The materialCount computed per node in analyzeModel
(src/src/main.js line 300): array length if the material is an array,
else 1 if a material is present, else 0. -/
def slotCount : MaterialBinding → Nat
  | .nomat => 0
  | .single _ => 1
  | .multi l => l.length

/-- Character-list test: pat matches at the head of the second list. -/
def matchesAt : List Char → List Char → Bool
  | [], _ => true
  | _ :: _, [] => false
  | p :: ps, c :: cs => decide (p = c) && matchesAt ps cs

/-- Character-list test: pat occurs contiguously somewhere in the list. -/
def listIncl (pat : List Char) : List Char → Bool
  | [] => pat.isEmpty
  | c :: cs => matchesAt pat (c :: cs) || listIncl pat cs

/-- JavaScript String.prototype.includes on an already-lowercased name,
held as a character list: substring containment. -/
def jsIncludes (name : List Char) (pat : String) : Bool :=
  listIncl pat.toList name

/-- ASCII lowercasing of one character, the effect of
String.prototype.toLowerCase on the ASCII node names the engine sees. -/
def charLower (c : Char) : Char :=
  if 'A' ≤ c && c ≤ 'Z' then Char.ofNat (c.toNat + 32) else c

/-- The lowercased node name (const name = child.name.toLowerCase()),
as a character list. -/
def lowerName (s : String) : List Char := s.toList.map charLower

/-- The five fixed part categories of the houseParts object
(src/src/main.js lines 6-12). -/
inductive Category : Type where
  | walls | roof | doors | windows | other
deriving DecidableEq, Repr, Inhabited

/-- The Part Index: houseParts, one ordered list of node references per
category.  Nodes are identified by their 0-based position in traversal
order (each visited mesh is a distinct reference). -/
structure PartIndex where
  walls : List Nat
  roof : List Nat
  doors : List Nat
  windows : List Nat
  other : List Nat
deriving DecidableEq, Repr, Inhabited

/-- houseParts after the reset at the top of analyzeModel. -/
def emptyIndex : PartIndex := ⟨[], [], [], [], []⟩

/-- The list stored for a given category. -/
def catList (idx : PartIndex) : Category → List Nat
  | .walls => idx.walls
  | .roof => idx.roof
  | .doors => idx.doors
  | .windows => idx.windows
  | .other => idx.other

/-- Number of occurrences of an element in a list. -/
def countOcc {α : Type} [DecidableEq α] (a : α) : List α → Nat
  | [] => 0
  | x :: t => (if x = a then 1 else 0) + countOcc a t

/-- Multiplicity of node i in category c of the index. -/
def countIn (idx : PartIndex) (c : Category) (i : Nat) : Nat :=
  countOcc i (catList idx c)

/-- houseParts[c].push(i). -/
def pushCat (idx : PartIndex) (i : Nat) : Category → PartIndex
  | .walls => { idx with walls := idx.walls ++ [i] }
  | .roof => { idx with roof := idx.roof ++ [i] }
  | .doors => { idx with doors := idx.doors ++ [i] }
  | .windows => { idx with windows := idx.windows ++ [i] }
  | .other => { idx with other := idx.other ++ [i] }

/-- Rules 3-6 of the classification chain of analyzeModel
(src/src/main.js lines 326-353): the keyword cascade in its fixed
source order (walls, roof, doors, windows) ending in the default
category, reached when neither composite detection nor the
cottage/house/first-mesh fallback fires. -/
def keywordCat (name : List Char) : Category :=
  if jsIncludes name "wall" || jsIncludes name "siding"
      || jsIncludes name "exterior" then
    .walls
  else if jsIncludes name "roof" || jsIncludes name "shingle"
      || jsIncludes name "tile" then
    .roof
  else if jsIncludes name "door" || jsIncludes name "entrance" then
    .doors
  else if jsIncludes name "window" || jsIncludes name "glass"
      || jsIncludes name "pane" then
    .windows
  else
    .other

/-- The if/else classification chain of analyzeModel
(src/src/main.js lines 304-353), as the list of categories pushed for
one renderable leaf: rules 1 and 2 inline, rules 3-6 via keywordCat.
meshCount is the value of the counter after the increment at the top of
the traversal callback; name comparisons use the lowercased node name
as in the source. -/
def categorize (meshCount : Nat) (node : SceneNode) : List Category :=
  let name := lowerName node.name
  let materialCount := slotCount node.material
  if jsIncludes name "cottage" && decide (4 ≤ materialCount) then
    [.walls, .roof, .doors, .windows]
  else if jsIncludes name "cottage" || jsIncludes name "house"
      || decide (meshCount = 1) then
    [.walls]
  else
    [keywordCat name]

/-- The traversal loop of analyzeModel over the remaining renderable
leaves.  processed counts the meshes already visited, so the head leaf
has index processed and sees meshCount = processed + 1. -/
def analyzeGo (processed : Nat) (acc : PartIndex) :
    List SceneNode → PartIndex
  | [] => acc
  | n :: ns =>
      analyzeGo (processed + 1)
        ((categorize (processed + 1) n).foldl
          (fun a c => pushCat a processed c) acc) ns

/-- analyzeModel (src/src/main.js lines 266-377) restricted to its
index-building effect: rebuilds houseParts from the renderable leaves
of the loaded model, given in traversal order. -/
def analyzeModel (nodes : List SceneNode) : PartIndex :=
  analyzeGo 0 emptyIndex nodes

/-- The composite-detection test of rule 1: lowercased label contains
the root keyword "cottage" and the node carries at least 4 material
slots. -/
def isComposite (n : SceneNode) : Bool :=
  jsIncludes (lowerName n.name) "cottage" && decide (4 ≤ slotCount n.material)

/-- Total multiplicity of node i across the five categories. -/
def totalIn (idx : PartIndex) (i : Nat) : Nat :=
  countIn idx .walls i + countIn idx .roof i + countIn idx .doors i
    + countIn idx .windows i + countIn idx .other i

/-- A scene graph as produced by the loader: every node may itself be a
renderable leaf (isMesh) and carries arbitrarily many children, at
arbitrary depth.  Non-mesh data of a node is irrelevant to the engine
and omitted. -/
inductive SceneGraph : Type where
  | mk (isMesh : Bool) (name : String) (material : MaterialBinding)
      (children : List SceneGraph)

mutual

/-- The renderable leaves reachable from a node, in the order
object.traverse visits them (the node itself first, then the children
in order, depth-first). -/
def SceneGraph.meshes : SceneGraph → List SceneNode
  | .mk m nm mat cs => (if m then [⟨nm, mat⟩] else []) ++ meshesList cs

/-- Renderable leaves of a forest of children, in order. -/
def meshesList : List SceneGraph → List SceneNode
  | [] => []
  | g :: gs => SceneGraph.meshes g ++ meshesList gs

end

/-- The classifier of the spec: classify(rootNode) -> PartIndex, i.e.
analyzeModel run over the traversal of the scene graph. -/
def classify (g : SceneGraph) : PartIndex :=
  analyzeModel g.meshes

/-- getPartMaterialIndex (src/src/main.js lines 379-388): the Material
Slot Map with the ?? -1 default for part types outside the map. -/
def getPartMaterialIndex (partType : String) : Int :=
  if partType = "walls" then 0
  else if partType = "roof" then 1
  else if partType = "doors" then 2
  else if partType = "windows" then 3
  else -1

/-- JavaScript property read houseParts[partType]: the stored list for
one of the five fixed keys, undefined (Option.none) otherwise. -/
def housePartsLookup (idx : PartIndex) (partType : String) :
    Option (List Nat) :=
  if partType = "walls" then some idx.walls
  else if partType = "roof" then some idx.roof
  else if partType = "doors" then some idx.doors
  else if partType = "windows" then some idx.windows
  else if partType = "other" then some idx.other
  else Option.none

/-- In-place update of one position of a list, leaving the list
unchanged when the position is out of range. -/
def modifyList {α : Type} (f : α → α) : List α → Nat → List α
  | [], _ => []
  | x :: t, 0 => f x :: t
  | x :: t, i + 1 => x :: modifyList f t i

/-- The body of the parts.forEach callback of updatePartColor
(src/src/main.js lines 399-417) on one node: no material means no
write; an array material writes only the mapped slot when the mapped
index is in range; a single material object has its color set
directly. -/
def updateNodeColor (partType : String) (c : Color) (n : SceneNode) :
    SceneNode :=
  match n.material with
  | .nomat => n
  | .single s => { n with material := .single { s with color := c } }
  | .multi slots =>
      let materialIndex := getPartMaterialIndex partType
      if 0 ≤ materialIndex ∧ materialIndex < (slots.length : Int) then
        { n with material :=
            .multi (modifyList (fun s => { s with color := c })
              slots materialIndex.toNat) }
      else n

/-- The heap of scene nodes: node i of the traversal lives at position
i; the Part Index holds references (positions) into it. -/
abbrev Store := List SceneNode

/-- The parts.forEach loop of updatePartColor over the category's node
references, threading the mutated heap. -/
def applyList (partType : String) (c : Color) (parts : List Nat)
    (store : Store) : Store :=
  parts.foldl (fun st i => modifyList (updateNodeColor partType c) st i)
    store

/-- updatePartColor (src/src/main.js lines 390-418): looks up
houseParts[partType] and repaints each referenced node.  A partType
outside the five keys makes the lookup yield undefined and
parts.forEach throw a TypeError, modelled as Option.none. -/
def updatePartColor (idx : PartIndex) (partType : String) (c : Color)
    (store : Store) : Option Store :=
  match housePartsLookup idx partType with
  | Option.none => Option.none
  | some parts => some (applyList partType c parts store)

/-- The colors of a node's slots in slot order (a single material
object is its only slot). -/
def slotColors (n : SceneNode) : List Color :=
  match n.material with
  | .nomat => []
  | .single s => [s.color]
  | .multi slots => slots.map (fun s => s.color)

/-- The slot updatePartColor resolves for a part type on a node, read
off the write behavior of the source: the single slot of a
single-material node, the mapped slot of an array material when the
mapped index is in range, nothing otherwise. -/
def resolvedIndex (partType : String) (n : SceneNode) : Option Nat :=
  match n.material with
  | .nomat => Option.none
  | .single _ => some 0
  | .multi slots =>
      let materialIndex := getPartMaterialIndex partType
      if 0 ≤ materialIndex ∧ materialIndex < (slots.length : Int) then
        some materialIndex.toNat
      else Option.none

/-- Color of slot j of node p in the heap, when both exist. -/
def colorAt (store : Store) (p j : Nat) : Option Color :=
  (store.get? p).bind (fun n => (slotColors n).get? j)

/-- State of the render-scheduling decorator of the optimized main
module: the needsRender dirty flag, the count of loop iterations run
(stats.frameCount analogue), and the count of renderer.render calls
issued. -/
structure RenderState where
  needsRender : Bool
  frames : Nat
  draws : Nat
deriving DecidableEq, Repr, Inhabited

/-- requestRender (optimized main module lines 118-120): any dirtying
event sets the flag. -/
def requestRender (s : RenderState) : RenderState :=
  { s with needsRender := true }

/-- One iteration of animate (optimized main module lines 744-759): the
loop body always runs (stats update), and only when needsRender is set
does it draw and clear the flag. -/
def animateStep (s : RenderState) : RenderState :=
  let s := { s with frames := s.frames + 1 }
  if s.needsRender then
    { s with draws := s.draws + 1, needsRender := false }
  else s

/-- Demonstration scene graph: a multi-material cottage body followed
by a door leaf, used to instantiate the classification theorems. -/
def demoCottageGraph : SceneGraph :=
  .mk false "RootNode" .nomat
    [.mk true "CottageBody" (.multi
        [⟨"Cottage_Walls", 1⟩, ⟨"Cottage_Roof", 2⟩,
         ⟨"Cottage_Doors", 3⟩, ⟨"Cottage_Windows", 4⟩]) [],
     .mk true "FrontDoor" (.single ⟨"DoorMat", 5⟩) []]

/-- Demonstration scene graph with two keyword-free renderable leaves. -/
def demoTwoMeshGraph : SceneGraph :=
  .mk false "RootNode" .nomat
    [.mk true "Mesh001" (.single ⟨"m1", 0⟩) [],
     .mk true "Mesh002" (.single ⟨"m2", 0⟩) []]

/-- Demonstration scene graph: a keyword-free base leaf followed by a
leaf whose label matches both the doors and the windows keyword sets. -/
def demoDoorGlassGraph : SceneGraph :=
  .mk false "RootNode" .nomat
    [.mk true "Base" (.single ⟨"m0", 0⟩) [],
     .mk true "FrontDoor_Glass" (.single ⟨"m1", 0⟩) []]

/-- Demonstration single-leaf scene graph whose label matches the doors
and windows keyword sets. -/
def demoSoloDoorGlassGraph : SceneGraph :=
  .mk true "FrontDoor_Glass" (.single ⟨"m", 0⟩) []

/-- Demonstration heap: one composite node carrying the four material
slots in the Blender export order, with pairwise distinct colors. -/
def demoStore : Store :=
  [⟨"CottageBody", .multi
    [⟨"Cottage_Walls", 10⟩, ⟨"Cottage_Roof", 11⟩,
     ⟨"Cottage_Doors", 12⟩, ⟨"Cottage_Windows", 13⟩]⟩]

/-- Part Index for demoStore as analyzeModel builds it for a composite
node: the single node referenced from all four named categories. -/
def demoIndex : PartIndex := ⟨[0], [0], [0], [0], []⟩

/-- demoStore after a roof repaint with color 9: slot index 1 changed,
slots 0, 2, 3 untouched. -/
def demoStoreRoof : Store :=
  [⟨"CottageBody", .multi
    [⟨"Cottage_Walls", 10⟩, ⟨"Cottage_Roof", 9⟩,
     ⟨"Cottage_Doors", 12⟩, ⟨"Cottage_Windows", 13⟩]⟩]

/-- Part Index referencing the composite demo node from the catch-all
category only. -/
def demoIndexOther : PartIndex := ⟨[], [], [], [], [0]⟩

/-
Helper lemmas about the classifier: a closed form for the multiplicity
of a leaf in each category of the rebuilt Part Index, and shape lemmas
for the per-leaf classification chain.
-/

theorem countOcc_append {α : Type} [DecidableEq α] (a : α) (l₁ l₂ : List α) :
    countOcc a (l₁ ++ l₂) = countOcc a l₁ + countOcc a l₂ := by
  induction l₁ with
  | nil => simp [countOcc]
  | cons x t ih => simp [countOcc, ih]; omega

theorem countIn_pushCat (idx : PartIndex) (j : Nat) (c c' : Category) (i : Nat) :
    countIn (pushCat idx j c) c' i =
      countIn idx c' i + (if j = i ∧ c = c' then 1 else 0) := by
  cases c <;> cases c' <;>
    simp [countIn, catList, pushCat, countOcc_append, countOcc]

theorem countIn_pushFold (cats : List Category) (idx : PartIndex) (j : Nat)
    (c : Category) (i : Nat) :
    countIn (cats.foldl (fun a k => pushCat a j k) idx) c i =
      countIn idx c i + (if j = i then countOcc c cats else 0) := by
  induction cats generalizing idx with
  | nil => simp [countOcc]
  | cons k t ih =>
      rw [List.foldl_cons, ih, countIn_pushCat]
      by_cases hj : j = i <;> by_cases hk : k = c <;>
        (simp [hj, hk, countOcc]; try omega)

theorem countIn_analyzeGo (ns : List SceneNode) (s : Nat) (idx : PartIndex)
    (c : Category) (i : Nat) :
    countIn (analyzeGo s idx ns) c i =
      countIn idx c i +
        (if s ≤ i ∧ i < s + ns.length then
          countOcc c (categorize (i + 1) (ns.getD (i - s) default)) else 0) := by
  induction ns generalizing s idx with
  | nil => simp [analyzeGo]
  | cons n t ih =>
      rw [analyzeGo, ih, countIn_pushFold]
      rcases Nat.lt_trichotomy i s with hlt | heq | hgt
      · have c1 : ¬ (s = i) := by omega
        have c2 : ¬ (s + 1 ≤ i ∧ i < s + 1 + t.length) := by omega
        have c3 : ¬ (s ≤ i ∧ i < s + (n :: t).length) := by omega
        simp only [if_neg c1, if_neg c2, if_neg c3]
      · subst heq
        have c1 : (i = i) := rfl
        have c2 : ¬ (i + 1 ≤ i ∧ i < i + 1 + t.length) := by omega
        have c3 : (i ≤ i ∧ i < i + (n :: t).length) := by
          simp only [List.length_cons]; omega
        simp only [if_pos c1, if_neg c2, if_pos c3, Nat.sub_self,
          List.getD_cons_zero]
        simp
      · have c1 : ¬ (s = i) := by omega
        have harr : i - s = (i - (s + 1)) + 1 := by omega
        have hgd : (n :: t).getD (i - s) default
            = t.getD (i - (s + 1)) default := by
          rw [harr]; rfl
        rw [hgd]
        by_cases hin : i < s + 1 + t.length
        · have c2 : (s + 1 ≤ i ∧ i < s + 1 + t.length) := ⟨by omega, hin⟩
          have c3 : (s ≤ i ∧ i < s + (n :: t).length) := by
            simp only [List.length_cons]; omega
          simp only [if_pos c2, if_pos c3, if_neg c1]
          omega
        · have c2 : ¬ (s + 1 ≤ i ∧ i < s + 1 + t.length) := by omega
          have c3 : ¬ (s ≤ i ∧ i < s + (n :: t).length) := by
            simp only [List.length_cons]; omega
          simp only [if_neg c2, if_neg c3, if_neg c1]

theorem countIn_analyzeModel (ns : List SceneNode) (c : Category) (i : Nat)
    (h : i < ns.length) :
    countIn (analyzeModel ns) c i =
      countOcc c (categorize (i + 1) (ns.getD i default)) := by
  rw [analyzeModel, countIn_analyzeGo]
  have hcond : (0 ≤ i ∧ i < 0 + ns.length) := ⟨Nat.zero_le _, by omega⟩
  rw [if_pos hcond, Nat.sub_zero]
  cases c <;> simp [countIn, catList, emptyIndex, countOcc]

theorem categorize_of_composite (m : Nat) (n : SceneNode)
    (h : isComposite n = true) :
    categorize m n = [.walls, .roof, .doors, .windows] := by
  rw [isComposite] at h
  simp [categorize, h]

theorem categorize_of_not_composite (m : Nat) (n : SceneNode)
    (h : isComposite n = false) :
    ∃ c : Category, categorize m n = [c] := by
  rw [isComposite] at h
  simp only [categorize, h]
  split
  · simp_all
  · split
    · exact ⟨.walls, rfl⟩
    · exact ⟨keywordCat (lowerName n.name), rfl⟩

theorem categorize_first_mesh (n : SceneNode) (h : isComposite n = false) :
    categorize 1 n = [.walls] := by
  rw [isComposite] at h
  simp [categorize, h]

theorem categorize_keyword_stage (m : Nat) (n : SceneNode)
    (hc : jsIncludes (lowerName n.name) "cottage" = false)
    (hh : jsIncludes (lowerName n.name) "house" = false)
    (hm : ¬ m = 1) :
    categorize m n = [keywordCat (lowerName n.name)] := by
  simp [categorize, hc, hh, hm]

theorem keywordCat_doors_first (name : List Char)
    (hw : (jsIncludes name "wall" || jsIncludes name "siding"
      || jsIncludes name "exterior") = false)
    (hr : (jsIncludes name "roof" || jsIncludes name "shingle"
      || jsIncludes name "tile") = false)
    (hd : (jsIncludes name "door" || jsIncludes name "entrance") = true) :
    keywordCat name = .doors := by
  simp [keywordCat, hw, hr, hd]

/-
Helper lemmas about the color applicator: pointwise behavior of
modifyList, per-node behavior of updateNodeColor, and the heap-level
effect of the parts.forEach loop.
-/

theorem modifyList_length {α : Type} (f : α → α) (l : List α) (i : Nat) :
    (modifyList f l i).length = l.length := by
  induction l generalizing i with
  | nil => rfl
  | cons x t ih => cases i <;> simp [modifyList, ih]

theorem modifyList_get? {α : Type} (f : α → α) (l : List α) (i j : Nat) :
    (modifyList f l i).get? j =
      if j = i then (l.get? j).map f else l.get? j := by
  induction l generalizing i j with
  | nil => simp [modifyList]
  | cons x t ih =>
      cases i with
      | zero =>
          cases j with
          | zero => simp [modifyList]
          | succ j => simp [modifyList]
      | succ i =>
          cases j with
          | zero => simp [modifyList]
          | succ j => simpa [modifyList] using ih i j

theorem modifyList_idem {α : Type} (f : α → α) (hf : ∀ x, f (f x) = f x)
    (l : List α) (i : Nat) :
    modifyList f (modifyList f l i) i = modifyList f l i := by
  induction l generalizing i with
  | nil => rfl
  | cons x t ih => cases i <;> simp [modifyList, hf, ih]

theorem map_modifyList {α β : Type} (f : α → α) (g : α → β) (h : β → β)
    (hfg : ∀ x, g (f x) = h (g x)) (l : List α) (i : Nat) :
    (modifyList f l i).map g = modifyList h (l.map g) i := by
  induction l generalizing i with
  | nil => rfl
  | cons x t ih => cases i <;> simp [modifyList, hfg, ih]

theorem updateNodeColor_nomat (pt : String) (c : Color) (nm : String) :
    updateNodeColor pt c ⟨nm, .nomat⟩ = ⟨nm, .nomat⟩ := rfl

theorem updateNodeColor_single (pt : String) (c : Color) (nm : String)
    (s : MaterialSlot) :
    updateNodeColor pt c ⟨nm, .single s⟩
      = ⟨nm, .single { s with color := c }⟩ := rfl

theorem updateNodeColor_multi (pt : String) (c : Color) (nm : String)
    (slots : List MaterialSlot) :
    updateNodeColor pt c ⟨nm, .multi slots⟩ =
      if 0 ≤ getPartMaterialIndex pt
          ∧ getPartMaterialIndex pt < (slots.length : Int) then
        ⟨nm, .multi (modifyList (fun s => { s with color := c }) slots
          (getPartMaterialIndex pt).toNat)⟩
      else ⟨nm, .multi slots⟩ := rfl

theorem resolvedIndex_multi (pt : String) (nm : String)
    (slots : List MaterialSlot) :
    resolvedIndex pt ⟨nm, .multi slots⟩ =
      if 0 ≤ getPartMaterialIndex pt
          ∧ getPartMaterialIndex pt < (slots.length : Int) then
        some (getPartMaterialIndex pt).toNat
      else Option.none := rfl

theorem slotColors_multi (nm : String) (slots : List MaterialSlot) :
    slotColors ⟨nm, .multi slots⟩ = slots.map (fun s => s.color) := rfl

theorem updateNodeColor_unresolved (pt : String) (c : Color) (n : SceneNode)
    (h : resolvedIndex pt n = Option.none) :
    updateNodeColor pt c n = n := by
  obtain ⟨nm, mat⟩ := n
  cases mat with
  | nomat => rfl
  | single s => simp [resolvedIndex] at h
  | multi slots =>
      rw [resolvedIndex_multi] at h
      rw [updateNodeColor_multi]
      split at h
      · cases h
      · rw [if_neg (by assumption)]

theorem slotColors_update_resolved (pt : String) (c : Color) (n : SceneNode)
    (j : Nat) (h : resolvedIndex pt n = some j) :
    slotColors (updateNodeColor pt c n) =
      modifyList (fun _ => c) (slotColors n) j := by
  obtain ⟨nm, mat⟩ := n
  cases mat with
  | nomat => simp [resolvedIndex] at h
  | single s =>
      have hj : j = 0 := by
        simpa [resolvedIndex] using h.symm
      subst hj
      rw [updateNodeColor_single]
      simp [slotColors, modifyList]
  | multi slots =>
      rw [resolvedIndex_multi] at h
      split at h
      · cases h
        rw [updateNodeColor_multi, if_pos (by assumption)]
        rw [slotColors_multi, slotColors_multi]
        exact map_modifyList (fun s => { s with color := c })
          (fun s => s.color) (fun _ => c) (fun x => rfl) slots _
      · cases h

theorem resolvedIndex_lt (pt : String) (n : SceneNode) (j : Nat)
    (h : resolvedIndex pt n = some j) : j < (slotColors n).length := by
  obtain ⟨nm, mat⟩ := n
  cases mat with
  | nomat => simp [resolvedIndex] at h
  | single s =>
      have hj : j = 0 := by
        simpa [resolvedIndex] using h.symm
      subst hj
      simp [slotColors]
  | multi slots =>
      rw [resolvedIndex_multi] at h
      split at h
      · cases h
        rw [slotColors_multi, List.length_map]
        omega
      · cases h

theorem resolvedIndex_update (pt pt' : String) (c : Color) (n : SceneNode) :
    resolvedIndex pt (updateNodeColor pt' c n) = resolvedIndex pt n := by
  obtain ⟨nm, mat⟩ := n
  cases mat with
  | nomat => rfl
  | single s => rfl
  | multi slots =>
      rw [updateNodeColor_multi]
      by_cases hcond : 0 ≤ getPartMaterialIndex pt'
          ∧ getPartMaterialIndex pt' < (slots.length : Int)
      · rw [if_pos hcond, resolvedIndex_multi, resolvedIndex_multi,
          modifyList_length]
      · rw [if_neg hcond]

theorem updateNodeColor_idem (pt : String) (c : Color) (n : SceneNode) :
    updateNodeColor pt c (updateNodeColor pt c n) = updateNodeColor pt c n := by
  obtain ⟨nm, mat⟩ := n
  cases mat with
  | nomat => rfl
  | single s => rfl
  | multi slots =>
      rw [updateNodeColor_multi]
      by_cases hcond : 0 ≤ getPartMaterialIndex pt
          ∧ getPartMaterialIndex pt < (slots.length : Int)
      · rw [if_pos hcond, updateNodeColor_multi,
          if_pos (by simpa [modifyList_length] using hcond)]
        simp only [SceneNode.mk.injEq, MaterialBinding.multi.injEq, true_and]
        exact modifyList_idem (fun s => { s with color := c })
          (fun x => rfl) slots _
      · rw [if_neg hcond, updateNodeColor_multi, if_neg hcond]

theorem applyList_cons (pt : String) (c : Color) (i : Nat) (rest : List Nat)
    (store : Store) :
    applyList pt c (i :: rest) store =
      applyList pt c rest (modifyList (updateNodeColor pt c) store i) := rfl

theorem applyList_get? (pt : String) (c : Color) (parts : List Nat)
    (store : Store) (p : Nat) :
    (applyList pt c parts store).get? p =
      if p ∈ parts then (store.get? p).map (updateNodeColor pt c)
      else store.get? p := by
  have hmapmap : ∀ o : Option SceneNode,
      (o.map (updateNodeColor pt c)).map (updateNodeColor pt c)
        = o.map (updateNodeColor pt c) := by
    intro o; cases o <;> simp [updateNodeColor_idem]
  induction parts generalizing store with
  | nil => simp [applyList]
  | cons i rest ih =>
      rw [applyList_cons, ih, modifyList_get?]
      by_cases hp : p = i <;> by_cases hm : p ∈ rest <;>
        simp [hp, hm, hmapmap]

theorem updatePartColor_eq (idx : PartIndex) (pt : String) (c : Color)
    (store : Store) (parts : List Nat)
    (hl : housePartsLookup idx pt = some parts) :
    updatePartColor idx pt c store = some (applyList pt c parts store) := by
  rw [updatePartColor, hl]

theorem colorAt_update_resolved (pt : String) (c : Color) (n : SceneNode)
    (j : Nat) (h : resolvedIndex pt n = some j) :
    (slotColors (updateNodeColor pt c n)).get? j = some c := by
  rw [slotColors_update_resolved pt c n j h, modifyList_get?, if_pos rfl]
  have hlt := resolvedIndex_lt pt n j h
  cases hx : (slotColors n).get? j with
  | none =>
      rw [List.get?_eq_none] at hx
      omega
  | some v => simp

theorem colorAt_update_other (pt : String) (c : Color) (n : SceneNode)
    (j : Nat) (h : ¬ resolvedIndex pt n = some j) :
    (slotColors (updateNodeColor pt c n)).get? j = (slotColors n).get? j := by
  cases hr : resolvedIndex pt n with
  | none => rw [updateNodeColor_unresolved pt c n hr]
  | some k =>
      rw [slotColors_update_resolved pt c n k hr, modifyList_get?, if_neg]
      intro hj
      subst hj
      exact h hr

/-
Claim theorems.
-/

/-- C7: in the render-scheduling decorator, every iteration of the
drive loop runs (the iteration counter always advances and any queued
dirtying event has set needsRender), a draw is performed in an
iteration exactly when the state is dirty there, performing the draw
transitions the state to clean, and two consecutive iterations with no
intervening dirtying event never issue two draws. -/
theorem c7_render_loop_dirty_flag (s : RenderState) :
    (animateStep s).frames = s.frames + 1 ∧
    (animateStep s).draws = (if s.needsRender then s.draws + 1 else s.draws) ∧
    (animateStep s).needsRender = false ∧
    (requestRender s).needsRender = true ∧
    (animateStep (animateStep s)).draws ≤ s.draws + 1 := by
  cases hn : s.needsRender <;>
    simp [animateStep, requestRender, hn]

/-- C9: updatePartColor on a category of the fixed set whose Part Index
sequence is empty terminates normally (it returns a value instead of
throwing) and leaves every node, hence every material slot, unchanged. -/
theorem c9_empty_category_noop (idx : PartIndex) (pt : String) (c : Color)
    (store : Store) (he : housePartsLookup idx pt = some []) :
    updatePartColor idx pt c store = some store := by
  rw [updatePartColor, he]
  rfl

/-- C9 witness: the roof category of an empty Part Index is empty, and
repainting it is a no-op on a one-node heap. -/
theorem c9_empty_category_noop_witness :
    housePartsLookup emptyIndex "roof" = some [] ∧
    updatePartColor emptyIndex "roof" 7
      [⟨"walls", MaterialBinding.single ⟨"m", 3⟩⟩]
      = some [⟨"walls", MaterialBinding.single ⟨"m", 3⟩⟩] :=
  ⟨rfl, c9_empty_category_noop emptyIndex "roof" 7
    [⟨"walls", MaterialBinding.single ⟨"m", 3⟩⟩] rfl⟩

/-- C10: for a category string outside the five fixed keys the lookup
houseParts[partType] yields undefined and iterating it throws, so
updatePartColor fails (returns no heap) instead of acting as a no-op:
the no-throw guarantee does not extend to unknown category names. -/
theorem c10_unknown_category_throws (idx : PartIndex) (c : Color)
    (store : Store) (pt : String)
    (h : ¬ (pt = "walls" ∨ pt = "roof" ∨ pt = "doors" ∨ pt = "windows"
      ∨ pt = "other")) :
    updatePartColor idx pt c store = Option.none := by
  have h1 : ¬ pt = "walls" := fun hh => h (Or.inl hh)
  have h2 : ¬ pt = "roof" := fun hh => h (Or.inr (Or.inl hh))
  have h3 : ¬ pt = "doors" := fun hh => h (Or.inr (Or.inr (Or.inl hh)))
  have h4 : ¬ pt = "windows" :=
    fun hh => h (Or.inr (Or.inr (Or.inr (Or.inl hh))))
  have h5 : ¬ pt = "other" :=
    fun hh => h (Or.inr (Or.inr (Or.inr (Or.inr hh))))
  rw [updatePartColor, housePartsLookup]
  rw [if_neg h1, if_neg h2, if_neg h3, if_neg h4, if_neg h5]

/-- C10 witness: the capitalized string "Walls", as an unvalidated UI
data attribute could supply, makes updatePartColor fail on any heap. -/
theorem c10_unknown_category_throws_witness :
    ¬ ("Walls" = "walls" ∨ "Walls" = "roof" ∨ "Walls" = "doors"
      ∨ "Walls" = "windows" ∨ "Walls" = "other") ∧
    updatePartColor ⟨[0], [0], [0], [0], []⟩ "Walls" 5
      [⟨"walls", MaterialBinding.single ⟨"m", 3⟩⟩] = Option.none :=
  ⟨by decide, c10_unknown_category_throws ⟨[0], [0], [0], [0], []⟩ 5
    [⟨"walls", MaterialBinding.single ⟨"m", 3⟩⟩] "Walls" (by decide)⟩

/-- C6: updatePartColor is idempotent: running the same category/color
update a second time on the heap it produced returns that heap
unchanged, so each slot's color is a pure function of the last update
that resolved it. -/
theorem c6_applyColor_idempotent (idx : PartIndex) (pt : String) (c : Color)
    (store store' : Store)
    (hu : updatePartColor idx pt c store = some store') :
    updatePartColor idx pt c store' = some store' := by
  rcases hlk : housePartsLookup idx pt with _ | parts
  · rw [updatePartColor, hlk] at hu
    cases hu
  · rw [updatePartColor, hlk] at hu
    injection hu with hu
    subst hu
    rw [updatePartColor_eq idx pt c _ parts hlk]
    congr 1
    apply List.ext_get?
    intro p
    rw [applyList_get?, applyList_get?]
    by_cases hp : p ∈ parts
    · rw [if_pos hp, if_pos hp]
      cases store.get? p <;> simp [updateNodeColor_idem]
    · rw [if_neg hp, if_neg hp]

/-- C6 witness: repainting the walls of a one-node heap twice with the
same color equals repainting once. -/
theorem c6_applyColor_idempotent_witness :
    updatePartColor ⟨[0], [], [], [], []⟩ "walls" 9
      [⟨"walls", MaterialBinding.single ⟨"m", 3⟩⟩]
      = some [⟨"walls", MaterialBinding.single ⟨"m", 9⟩⟩] ∧
    updatePartColor ⟨[0], [], [], [], []⟩ "walls" 9
      [⟨"walls", MaterialBinding.single ⟨"m", 9⟩⟩]
      = some [⟨"walls", MaterialBinding.single ⟨"m", 9⟩⟩] :=
  ⟨rfl, c6_applyColor_idempotent ⟨[0], [], [], [], []⟩ "walls" 9
    [⟨"walls", MaterialBinding.single ⟨"m", 3⟩⟩]
    [⟨"walls", MaterialBinding.single ⟨"m", 9⟩⟩] rfl⟩

theorem totalIn_analyzeModel (ns : List SceneNode) (i : Nat)
    (h : i < ns.length) :
    totalIn (analyzeModel ns) i =
      countOcc Category.walls (categorize (i + 1) (ns.getD i default))
      + countOcc Category.roof (categorize (i + 1) (ns.getD i default))
      + countOcc Category.doors (categorize (i + 1) (ns.getD i default))
      + countOcc Category.windows (categorize (i + 1) (ns.getD i default))
      + countOcc Category.other (categorize (i + 1) (ns.getD i default)) := by
  rw [totalIn, countIn_analyzeModel _ _ _ h, countIn_analyzeModel _ _ _ h,
    countIn_analyzeModel _ _ _ h, countIn_analyzeModel _ _ _ h,
    countIn_analyzeModel _ _ _ h]

theorem totalIn_of_single (ns : List SceneNode) (i : Nat)
    (h : i < ns.length) (c : Category)
    (hc : categorize (i + 1) (ns.getD i default) = [c]) :
    totalIn (analyzeModel ns) i = 1 := by
  rw [totalIn_analyzeModel ns i h, hc]
  cases c <;> simp [countOcc]

/-- C1: classify places every renderable leaf of a scene graph into at
least one of the five categories; the leaf appears exactly once across
all categories when the composite-detection rule does not apply to it,
and exactly once in each of walls, roof, doors and windows and never in
other when that rule applies. -/
theorem c1_partition (g : SceneGraph) (i : Nat)
    (h : i < g.meshes.length) :
    1 ≤ totalIn (classify g) i ∧
    (isComposite (g.meshes.getD i default) = true →
      countIn (classify g) Category.walls i = 1 ∧
      countIn (classify g) Category.roof i = 1 ∧
      countIn (classify g) Category.doors i = 1 ∧
      countIn (classify g) Category.windows i = 1 ∧
      countIn (classify g) Category.other i = 0) ∧
    (isComposite (g.meshes.getD i default) = false →
      totalIn (classify g) i = 1) := by
  have key : ∀ c : Category, countIn (classify g) c i
      = countOcc c (categorize (i + 1) (g.meshes.getD i default)) :=
    fun c => countIn_analyzeModel g.meshes c i h
  have htot : totalIn (classify g) i =
      countOcc Category.walls (categorize (i + 1) (g.meshes.getD i default))
      + countOcc Category.roof (categorize (i + 1) (g.meshes.getD i default))
      + countOcc Category.doors (categorize (i + 1) (g.meshes.getD i default))
      + countOcc Category.windows
          (categorize (i + 1) (g.meshes.getD i default))
      + countOcc Category.other
          (categorize (i + 1) (g.meshes.getD i default)) :=
    totalIn_analyzeModel g.meshes i h
  cases hcomp : isComposite (g.meshes.getD i default) with
  | false =>
      obtain ⟨c, hc⟩ := categorize_of_not_composite (i + 1) _ hcomp
      refine ⟨?_, ?_, ?_⟩
      · rw [htot, hc]
        cases c <;> simp [countOcc]
      · intro he
        simp at he
      · intro _
        rw [htot, hc]
        cases c <;> simp [countOcc]
  | true =>
      have hc := categorize_of_composite (i + 1) _ hcomp
      refine ⟨?_, ?_, ?_⟩
      · rw [htot, hc]
        simp [countOcc]
      · intro _
        refine ⟨?_, ?_, ?_, ?_, ?_⟩ <;> rw [key, hc] <;> simp [countOcc]
      · intro he
        simp at he

/-- C1 witness: the two-leaf demonstration graph with a composite
cottage body, instantiated at its first leaf. -/
theorem c1_partition_witness :
    0 < demoCottageGraph.meshes.length ∧
    (1 ≤ totalIn (classify demoCottageGraph) 0 ∧
     (isComposite (demoCottageGraph.meshes.getD 0 default) = true →
       countIn (classify demoCottageGraph) Category.walls 0 = 1 ∧
       countIn (classify demoCottageGraph) Category.roof 0 = 1 ∧
       countIn (classify demoCottageGraph) Category.doors 0 = 1 ∧
       countIn (classify demoCottageGraph) Category.windows 0 = 1 ∧
       countIn (classify demoCottageGraph) Category.other 0 = 0) ∧
     (isComposite (demoCottageGraph.meshes.getD 0 default) = false →
       totalIn (classify demoCottageGraph) 0 = 1)) :=
  ⟨by decide, c1_partition demoCottageGraph 0 (by decide)⟩

/-- C3: a renderable leaf whose lowercased label contains "cottage" and
that carries at least 4 material slots is pushed into all four named
categories walls, roof, doors and windows simultaneously, and not into
other. -/
theorem c3_composite_all_four (g : SceneGraph) (i : Nat)
    (h : i < g.meshes.length)
    (hc : jsIncludes (lowerName (g.meshes.getD i default).name) "cottage"
      = true)
    (hs : 4 ≤ slotCount (g.meshes.getD i default).material) :
    0 < countIn (classify g) Category.walls i ∧
    0 < countIn (classify g) Category.roof i ∧
    0 < countIn (classify g) Category.doors i ∧
    0 < countIn (classify g) Category.windows i ∧
    countIn (classify g) Category.other i = 0 := by
  have hcomp : isComposite (g.meshes.getD i default) = true := by
    rw [isComposite, hc]
    simpa using hs
  have hcat : categorize (i + 1) (g.meshes.getD i default)
      = [Category.walls, Category.roof, Category.doors, Category.windows] :=
    categorize_of_composite (i + 1) _ hcomp
  have key : ∀ c : Category, countIn (classify g) c i
      = countOcc c (categorize (i + 1) (g.meshes.getD i default)) :=
    fun c => countIn_analyzeModel g.meshes c i h
  refine ⟨?_, ?_, ?_, ?_, ?_⟩ <;> rw [key, hcat] <;> simp [countOcc]

/-- C3 witness: the leaf "CottageBody" with 4 material slots lands in
all four named categories and not in other. -/
theorem c3_composite_all_four_witness :
    0 < demoCottageGraph.meshes.length ∧
    jsIncludes (lowerName (demoCottageGraph.meshes.getD 0 default).name)
      "cottage" = true ∧
    4 ≤ slotCount (demoCottageGraph.meshes.getD 0 default).material ∧
    (0 < countIn (classify demoCottageGraph) Category.walls 0 ∧
     0 < countIn (classify demoCottageGraph) Category.roof 0 ∧
     0 < countIn (classify demoCottageGraph) Category.doors 0 ∧
     0 < countIn (classify demoCottageGraph) Category.windows 0 ∧
     countIn (classify demoCottageGraph) Category.other 0 = 0) :=
  ⟨by decide, by decide, by decide,
   c3_composite_all_four demoCottageGraph 0 (by decide) (by decide)
     (by decide)⟩

/-- C2 counterexample: demoTwoMeshGraph has two renderable leaves, and
its first leaf "Mesh001" (no keyword match, one material slot) is still
assigned to walls and not to the default category: the fallback's
meshCount === 1 test fires on the first leaf of any traversal, not only
when the leaf is the sole one. -/
theorem c2_counterexample :
    demoTwoMeshGraph.meshes.length = 2 ∧
    countIn (classify demoTwoMeshGraph) Category.walls 0 = 1 ∧
    countIn (classify demoTwoMeshGraph) Category.other 0 = 0 := by
  decide

/-- C2 amended: the single-composite fallback keys on traversal
position, not on the total number of leaves: a renderable leaf whose
lowercased label contains neither "cottage" nor "house" is pushed into
walls only, by the fallback, exactly when it is the first renderable
leaf of the traversal; every later such leaf falls through to the
keyword rules or the default category, regardless of how many leaves
the scene graph holds. -/
theorem c2_amended_first_leaf_fallback (g : SceneGraph) (i : Nat)
    (h : i < g.meshes.length)
    (hc : jsIncludes (lowerName (g.meshes.getD i default).name) "cottage"
      = false)
    (hh : jsIncludes (lowerName (g.meshes.getD i default).name) "house"
      = false) :
    (i = 0 → countIn (classify g) Category.walls i = 1 ∧
      totalIn (classify g) i = 1) ∧
    (i ≠ 0 → countIn (classify g)
        (keywordCat (lowerName (g.meshes.getD i default).name)) i = 1 ∧
      totalIn (classify g) i = 1) := by
  have key : ∀ c : Category, countIn (classify g) c i
      = countOcc c (categorize (i + 1) (g.meshes.getD i default)) :=
    fun c => countIn_analyzeModel g.meshes c i h
  constructor
  · intro hi
    subst hi
    have hcompf : isComposite (g.meshes.getD 0 default) = false := by
      rw [isComposite, hc]
      rfl
    have hcat : categorize (0 + 1) (g.meshes.getD 0 default)
        = [Category.walls] := categorize_first_mesh _ hcompf
    refine ⟨?_, ?_⟩
    · rw [key, hcat]
      simp [countOcc]
    · exact totalIn_of_single g.meshes 0 h _ hcat
  · intro hne
    have hcat : categorize (i + 1) (g.meshes.getD i default)
        = [keywordCat (lowerName (g.meshes.getD i default).name)] :=
      categorize_keyword_stage (i + 1) _ hc hh (by omega)
    refine ⟨?_, ?_⟩
    · rw [key, hcat]
      simp [countOcc]
    · exact totalIn_of_single g.meshes i h _ hcat

/-- C2 amended witness: the second keyword-free leaf "Mesh002" of the
two-leaf graph is not captured by the fallback and lands in its keyword
category (the default, other). -/
theorem c2_amended_first_leaf_fallback_witness :
    1 < demoTwoMeshGraph.meshes.length ∧
    jsIncludes (lowerName (demoTwoMeshGraph.meshes.getD 1 default).name)
      "cottage" = false ∧
    jsIncludes (lowerName (demoTwoMeshGraph.meshes.getD 1 default).name)
      "house" = false ∧
    ((1 = 0 → countIn (classify demoTwoMeshGraph) Category.walls 1 = 1 ∧
       totalIn (classify demoTwoMeshGraph) 1 = 1) ∧
     ((1 : Nat) ≠ 0 → countIn (classify demoTwoMeshGraph)
         (keywordCat (lowerName
           (demoTwoMeshGraph.meshes.getD 1 default).name)) 1 = 1 ∧
       totalIn (classify demoTwoMeshGraph) 1 = 1)) :=
  ⟨by decide, by decide, by decide,
   c2_amended_first_leaf_fallback demoTwoMeshGraph 1 (by decide) (by decide)
     (by decide)⟩

/-- C8 counterexample: when "FrontDoor_Glass" is the sole, hence first,
renderable leaf of the traversal, the fallback rule runs before the
keyword rules and assigns it to walls, not doors; the tie-break claim
as stated over every leaf therefore fails. -/
theorem c8_counterexample :
    countIn (classify demoSoloDoorGlassGraph) Category.doors 0 = 0 ∧
    countIn (classify demoSoloDoorGlassGraph) Category.walls 0 = 1 := by
  decide

/-- A label matching the walls keyword set is classed walls by the
keyword cascade, whatever the later sets say. -/
theorem keywordCat_walls_first (name : List Char)
    (hw : (jsIncludes name "wall" || jsIncludes name "siding"
      || jsIncludes name "exterior") = true) :
    keywordCat name = .walls := by
  simp [keywordCat, hw]

/-- A label missing the walls set and matching the roof set is classed
roof by the keyword cascade, whatever the later sets say. -/
theorem keywordCat_roof_first (name : List Char)
    (hw : (jsIncludes name "wall" || jsIncludes name "siding"
      || jsIncludes name "exterior") = false)
    (hr : (jsIncludes name "roof" || jsIncludes name "shingle"
      || jsIncludes name "tile") = true) :
    keywordCat name = .roof := by
  simp [keywordCat, hw, hr]

/-- A label missing the walls, roof and doors sets and matching the
windows set is classed windows by the keyword cascade. -/
theorem keywordCat_windows_first (name : List Char)
    (hw : (jsIncludes name "wall" || jsIncludes name "siding"
      || jsIncludes name "exterior") = false)
    (hr : (jsIncludes name "roof" || jsIncludes name "shingle"
      || jsIncludes name "tile") = false)
    (hd : (jsIncludes name "door" || jsIncludes name "entrance") = false)
    (hwin : (jsIncludes name "window" || jsIncludes name "glass"
      || jsIncludes name "pane") = true) :
    keywordCat name = .windows := by
  simp [keywordCat, hw, hr, hd, hwin]

/-- C8 amended: for every renderable leaf that reaches the keyword
stage (it is not the first leaf of the traversal and its lowercased
label contains neither "cottage" nor "house"), the keyword rules are
checked in the fixed order walls, roof, doors, windows and the first
matching rule wins: a label matching the walls set is assigned to
walls only; one missing walls and matching roof to roof only; one
missing walls and roof and matching doors to doors only, even when the
label also matches the windows set; one missing walls, roof and doors
and matching windows to windows only.  In particular a non-first leaf
labeled "FrontDoor_Glass", matching both the doors and the windows
sets, is assigned to doors.  A first leaf is instead captured by the
walls fallback, as the counterexample shows. -/
theorem c8_amended_keyword_tie_break (g : SceneGraph) (i : Nat)
    (h : i < g.meshes.length) (hne : i ≠ 0)
    (hc : jsIncludes (lowerName (g.meshes.getD i default).name) "cottage"
      = false)
    (hh : jsIncludes (lowerName (g.meshes.getD i default).name) "house"
      = false) :
    ((jsIncludes (lowerName (g.meshes.getD i default).name) "wall"
      || jsIncludes (lowerName (g.meshes.getD i default).name) "siding"
      || jsIncludes (lowerName (g.meshes.getD i default).name) "exterior")
      = true →
      countIn (classify g) Category.walls i = 1 ∧
      totalIn (classify g) i = 1) ∧
    ((jsIncludes (lowerName (g.meshes.getD i default).name) "wall"
      || jsIncludes (lowerName (g.meshes.getD i default).name) "siding"
      || jsIncludes (lowerName (g.meshes.getD i default).name) "exterior")
      = false →
      (jsIncludes (lowerName (g.meshes.getD i default).name) "roof"
      || jsIncludes (lowerName (g.meshes.getD i default).name) "shingle"
      || jsIncludes (lowerName (g.meshes.getD i default).name) "tile")
      = true →
      countIn (classify g) Category.roof i = 1 ∧
      totalIn (classify g) i = 1) ∧
    ((jsIncludes (lowerName (g.meshes.getD i default).name) "wall"
      || jsIncludes (lowerName (g.meshes.getD i default).name) "siding"
      || jsIncludes (lowerName (g.meshes.getD i default).name) "exterior")
      = false →
      (jsIncludes (lowerName (g.meshes.getD i default).name) "roof"
      || jsIncludes (lowerName (g.meshes.getD i default).name) "shingle"
      || jsIncludes (lowerName (g.meshes.getD i default).name) "tile")
      = false →
      (jsIncludes (lowerName (g.meshes.getD i default).name) "door"
      || jsIncludes (lowerName (g.meshes.getD i default).name) "entrance")
      = true →
      countIn (classify g) Category.doors i = 1 ∧
      countIn (classify g) Category.windows i = 0 ∧
      totalIn (classify g) i = 1) ∧
    ((jsIncludes (lowerName (g.meshes.getD i default).name) "wall"
      || jsIncludes (lowerName (g.meshes.getD i default).name) "siding"
      || jsIncludes (lowerName (g.meshes.getD i default).name) "exterior")
      = false →
      (jsIncludes (lowerName (g.meshes.getD i default).name) "roof"
      || jsIncludes (lowerName (g.meshes.getD i default).name) "shingle"
      || jsIncludes (lowerName (g.meshes.getD i default).name) "tile")
      = false →
      (jsIncludes (lowerName (g.meshes.getD i default).name) "door"
      || jsIncludes (lowerName (g.meshes.getD i default).name) "entrance")
      = false →
      (jsIncludes (lowerName (g.meshes.getD i default).name) "window"
      || jsIncludes (lowerName (g.meshes.getD i default).name) "glass"
      || jsIncludes (lowerName (g.meshes.getD i default).name) "pane")
      = true →
      countIn (classify g) Category.windows i = 1 ∧
      totalIn (classify g) i = 1) := by
  have key : ∀ c : Category, countIn (classify g) c i
      = countOcc c (categorize (i + 1) (g.meshes.getD i default)) :=
    fun c => countIn_analyzeModel g.meshes c i h
  have hcat : categorize (i + 1) (g.meshes.getD i default)
      = [keywordCat (lowerName (g.meshes.getD i default).name)] :=
    categorize_keyword_stage (i + 1) _ hc hh (by omega)
  refine ⟨?_, ?_, ?_, ?_⟩
  · intro hw
    have hkw := keywordCat_walls_first _ hw
    rw [hkw] at hcat
    exact ⟨by rw [key, hcat]; simp [countOcc],
      totalIn_of_single g.meshes i h _ hcat⟩
  · intro hw hr
    have hkw := keywordCat_roof_first _ hw hr
    rw [hkw] at hcat
    exact ⟨by rw [key, hcat]; simp [countOcc],
      totalIn_of_single g.meshes i h _ hcat⟩
  · intro hw hr hd
    have hkw := keywordCat_doors_first _ hw hr hd
    rw [hkw] at hcat
    exact ⟨by rw [key, hcat]; simp [countOcc],
      by rw [key, hcat]; simp [countOcc],
      totalIn_of_single g.meshes i h _ hcat⟩
  · intro hw hr hd hwin
    have hkw := keywordCat_windows_first _ hw hr hd hwin
    rw [hkw] at hcat
    exact ⟨by rw [key, hcat]; simp [countOcc],
      totalIn_of_single g.meshes i h _ hcat⟩

/-- C8 amended witness: the leaf "FrontDoor_Glass" in second traversal
position matches both the doors and the windows keyword sets; the
tie-break theorem applied there, together with its doors branch
evaluated concretely, shows the leaf is assigned to doors and not to
windows. -/
theorem c8_amended_keyword_tie_break_witness :
    1 < demoDoorGlassGraph.meshes.length ∧
    (jsIncludes (lowerName (demoDoorGlassGraph.meshes.getD 1 default).name)
      "door" = true) ∧
    (jsIncludes (lowerName (demoDoorGlassGraph.meshes.getD 1 default).name)
      "glass" = true) ∧
    (((jsIncludes (lowerName (demoDoorGlassGraph.meshes.getD 1 default).name)
        "wall"
      || jsIncludes (lowerName (demoDoorGlassGraph.meshes.getD 1 default).name)
        "siding"
      || jsIncludes (lowerName (demoDoorGlassGraph.meshes.getD 1 default).name)
        "exterior") = true →
      countIn (classify demoDoorGlassGraph) Category.walls 1 = 1 ∧
      totalIn (classify demoDoorGlassGraph) 1 = 1) ∧
     ((jsIncludes (lowerName (demoDoorGlassGraph.meshes.getD 1 default).name)
        "wall"
      || jsIncludes (lowerName (demoDoorGlassGraph.meshes.getD 1 default).name)
        "siding"
      || jsIncludes (lowerName (demoDoorGlassGraph.meshes.getD 1 default).name)
        "exterior") = false →
      (jsIncludes (lowerName (demoDoorGlassGraph.meshes.getD 1 default).name)
        "roof"
      || jsIncludes (lowerName (demoDoorGlassGraph.meshes.getD 1 default).name)
        "shingle"
      || jsIncludes (lowerName (demoDoorGlassGraph.meshes.getD 1 default).name)
        "tile") = true →
      countIn (classify demoDoorGlassGraph) Category.roof 1 = 1 ∧
      totalIn (classify demoDoorGlassGraph) 1 = 1) ∧
     ((jsIncludes (lowerName (demoDoorGlassGraph.meshes.getD 1 default).name)
        "wall"
      || jsIncludes (lowerName (demoDoorGlassGraph.meshes.getD 1 default).name)
        "siding"
      || jsIncludes (lowerName (demoDoorGlassGraph.meshes.getD 1 default).name)
        "exterior") = false →
      (jsIncludes (lowerName (demoDoorGlassGraph.meshes.getD 1 default).name)
        "roof"
      || jsIncludes (lowerName (demoDoorGlassGraph.meshes.getD 1 default).name)
        "shingle"
      || jsIncludes (lowerName (demoDoorGlassGraph.meshes.getD 1 default).name)
        "tile") = false →
      (jsIncludes (lowerName (demoDoorGlassGraph.meshes.getD 1 default).name)
        "door"
      || jsIncludes (lowerName (demoDoorGlassGraph.meshes.getD 1 default).name)
        "entrance") = true →
      countIn (classify demoDoorGlassGraph) Category.doors 1 = 1 ∧
      countIn (classify demoDoorGlassGraph) Category.windows 1 = 0 ∧
      totalIn (classify demoDoorGlassGraph) 1 = 1) ∧
     ((jsIncludes (lowerName (demoDoorGlassGraph.meshes.getD 1 default).name)
        "wall"
      || jsIncludes (lowerName (demoDoorGlassGraph.meshes.getD 1 default).name)
        "siding"
      || jsIncludes (lowerName (demoDoorGlassGraph.meshes.getD 1 default).name)
        "exterior") = false →
      (jsIncludes (lowerName (demoDoorGlassGraph.meshes.getD 1 default).name)
        "roof"
      || jsIncludes (lowerName (demoDoorGlassGraph.meshes.getD 1 default).name)
        "shingle"
      || jsIncludes (lowerName (demoDoorGlassGraph.meshes.getD 1 default).name)
        "tile") = false →
      (jsIncludes (lowerName (demoDoorGlassGraph.meshes.getD 1 default).name)
        "door"
      || jsIncludes (lowerName (demoDoorGlassGraph.meshes.getD 1 default).name)
        "entrance") = false →
      (jsIncludes (lowerName (demoDoorGlassGraph.meshes.getD 1 default).name)
        "window"
      || jsIncludes (lowerName (demoDoorGlassGraph.meshes.getD 1 default).name)
        "glass"
      || jsIncludes (lowerName (demoDoorGlassGraph.meshes.getD 1 default).name)
        "pane") = true →
      countIn (classify demoDoorGlassGraph) Category.windows 1 = 1 ∧
      totalIn (classify demoDoorGlassGraph) 1 = 1)) ∧
    (countIn (classify demoDoorGlassGraph) Category.doors 1 = 1 ∧
     countIn (classify demoDoorGlassGraph) Category.windows 1 = 0 ∧
     totalIn (classify demoDoorGlassGraph) 1 = 1) :=
  ⟨by decide, by decide, by decide,
   c8_amended_keyword_tie_break demoDoorGlassGraph 1 (by decide) (by decide)
     (by decide) (by decide),
   by decide⟩

/-- C4: after updatePartColor(cat, c), every slot the category resolves
on a node of its list (the single slot of a single-material node, or
the Material Slot Map index - 0 walls, 1 roof, 2 doors, 3 windows - on
an array-material node when in range) reads back c; every slot not
resolved for the category keeps its prior color, and nodes outside the
category's list are never touched. -/
theorem c4_apply_color (idx : PartIndex) (pt : String) (c : Color)
    (store store' : Store) (parts : List Nat)
    (hl : housePartsLookup idx pt = some parts)
    (hu : updatePartColor idx pt c store = some store') (p : Nat) :
    (p ∉ parts → store'.get? p = store.get? p) ∧
    (∀ n : SceneNode, store.get? p = some n →
      (∀ j : Nat, p ∈ parts → resolvedIndex pt n = some j →
        colorAt store' p j = some c) ∧
      (∀ j : Nat, p ∉ parts ∨ ¬ resolvedIndex pt n = some j →
        colorAt store' p j = colorAt store p j)) := by
  rw [updatePartColor_eq idx pt c store parts hl] at hu
  injection hu with hu
  subst hu
  refine ⟨?_, ?_⟩
  · intro hp
    rw [applyList_get?, if_neg hp]
  · intro n hn
    refine ⟨?_, ?_⟩
    · intro j hp hres
      simp only [colorAt]
      rw [applyList_get?, if_pos hp, hn]
      exact colorAt_update_resolved pt c n j hres
    · intro j hj
      rcases hj with hp | hres
      · simp only [colorAt]
        rw [applyList_get?, if_neg hp]
      · simp only [colorAt]
        rw [applyList_get?]
        by_cases hp : p ∈ parts
        · rw [if_pos hp, hn]
          exact colorAt_update_other pt c n j hres
        · rw [if_neg hp]

/-- C4 witness: repainting the roof of the composite demo node with
color 9 writes slot index 1 only; slots 0, 2 and 3 keep their colors. -/
theorem c4_apply_color_witness :
    housePartsLookup demoIndex "roof" = some [0] ∧
    updatePartColor demoIndex "roof" 9 demoStore = some demoStoreRoof ∧
    ((0 ∉ ([0] : List Nat) → demoStoreRoof.get? 0 = demoStore.get? 0) ∧
     (∀ n : SceneNode, demoStore.get? 0 = some n →
       (∀ j : Nat, 0 ∈ ([0] : List Nat) → resolvedIndex "roof" n = some j →
         colorAt demoStoreRoof 0 j = some 9) ∧
       (∀ j : Nat, 0 ∉ ([0] : List Nat) ∨ ¬ resolvedIndex "roof" n = some j →
         colorAt demoStoreRoof 0 j = colorAt demoStore 0 j))) ∧
    colorAt demoStoreRoof 0 1 = some 9 ∧
    colorAt demoStoreRoof 0 0 = colorAt demoStore 0 0 ∧
    colorAt demoStoreRoof 0 2 = colorAt demoStore 0 2 ∧
    colorAt demoStoreRoof 0 3 = colorAt demoStore 0 3 :=
  ⟨rfl, by decide,
   c4_apply_color demoIndex "roof" 9 demoStore demoStoreRoof [0] rfl
     (by decide) 0,
   by decide, by decide, by decide, by decide⟩

/-- C5: a node with an array material whose mapped slot index for the
category is invalid (absent from the Material Slot Map, i.e. -1, or out
of range for that node's slots) is skipped with its node record, hence
all its slots, unchanged; the update still completes normally and
processes the rest of the category's list, and on any array-material
node no slot other than the mapped one is ever written. -/
theorem c5_unresolvable_slot_skipped (idx : PartIndex) (pt : String)
    (c : Color) (store : Store) (parts : List Nat)
    (hl : housePartsLookup idx pt = some parts) :
    updatePartColor idx pt c store = some (applyList pt c parts store) ∧
    (∀ p : Nat, ∀ n : SceneNode, ∀ slots : List MaterialSlot,
      store.get? p = some n → n.material = MaterialBinding.multi slots →
      ¬ (0 ≤ getPartMaterialIndex pt
          ∧ getPartMaterialIndex pt < (slots.length : Int)) →
      (applyList pt c parts store).get? p = some n) ∧
    (∀ p : Nat, ∀ n : SceneNode, ∀ slots : List MaterialSlot,
      store.get? p = some n → n.material = MaterialBinding.multi slots →
      ∀ j : Nat, (j : Int) ≠ getPartMaterialIndex pt →
        colorAt (applyList pt c parts store) p j = colorAt store p j) := by
  refine ⟨updatePartColor_eq idx pt c store parts hl, ?_, ?_⟩
  · intro p n slots hn hm hbad
    have hres : resolvedIndex pt n = Option.none := by
      obtain ⟨nm, mat⟩ := n
      have hm' : mat = MaterialBinding.multi slots := hm
      subst hm'
      rw [resolvedIndex_multi, if_neg hbad]
    have hid : updateNodeColor pt c n = n :=
      updateNodeColor_unresolved pt c n hres
    rw [applyList_get?]
    by_cases hp : p ∈ parts
    · rw [if_pos hp, hn]
      simp [hid]
    · rw [if_neg hp]
      exact hn
  · intro p n slots hn hm j hj
    have hres : ¬ resolvedIndex pt n = some j := by
      obtain ⟨nm, mat⟩ := n
      have hm' : mat = MaterialBinding.multi slots := hm
      subst hm'
      rw [resolvedIndex_multi]
      split
      · rename_i hcond
        intro hcontra
        injection hcontra with hcontra
        exact hj (by omega)
      · intro hcontra
        simp at hcontra
    simp only [colorAt]
    rw [applyList_get?]
    by_cases hp : p ∈ parts
    · rw [if_pos hp, hn]
      exact colorAt_update_other pt c n j hres
    · rw [if_neg hp]

/-- C5 witness: the catch-all category has no entry in the Material
Slot Map (index -1), so repainting it skips the composite array node
entirely while the call still returns a heap. -/
theorem c5_unresolvable_slot_skipped_witness :
    housePartsLookup demoIndexOther "other" = some [0] ∧
    (updatePartColor demoIndexOther "other" 9 demoStore
        = some (applyList "other" 9 [0] demoStore) ∧
     (∀ p : Nat, ∀ n : SceneNode, ∀ slots : List MaterialSlot,
       demoStore.get? p = some n →
       n.material = MaterialBinding.multi slots →
       ¬ (0 ≤ getPartMaterialIndex "other"
           ∧ getPartMaterialIndex "other" < (slots.length : Int)) →
       (applyList "other" 9 [0] demoStore).get? p = some n) ∧
     (∀ p : Nat, ∀ n : SceneNode, ∀ slots : List MaterialSlot,
       demoStore.get? p = some n →
       n.material = MaterialBinding.multi slots →
       ∀ j : Nat, (j : Int) ≠ getPartMaterialIndex "other" →
         colorAt (applyList "other" 9 [0] demoStore) p j
           = colorAt demoStore p j)) ∧
    applyList "other" 9 [0] demoStore = demoStore :=
  ⟨rfl,
   c5_unresolvable_slot_skipped demoIndexOther "other" 9 demoStore [0] rfl,
   by decide⟩
